import Mathlib

/-! Verification of the Cognitive SOAR threat-attribution pipeline,
a shallow embedding of app.py and train_model.py: the 14-field feature
schema, the input-form preparation, the heuristic risk scorer, the
threat-actor profile binding, the serving pipeline, and the synthetic
training-data generator. -/

namespace SOAR

/-- The 14-dimensional feature vector consumed by the classifier, the
clustering model and the risk scorer (the feature list of
train_model.py lines 17-22; values are small ordinals in -1, 0, 1). -/
structure FeatureVec where
  having_IP_Address : Int
  URL_Length : Int
  Shortining_Service : Int
  having_At_Symbol : Int
  double_slash_redirecting : Int
  Prefix_Suffix : Int
  having_Sub_Domain : Int
  SSLfinal_State : Int
  URL_of_Anchor : Int
  Links_in_tags : Int
  SFH : Int
  Abnormal_URL : Int
  has_political_keyword : Int
  sophistication_level : Int
deriving DecidableEq, Repr

/-- Names of the 14 feature fields, used to speak about which field a
risk factor reads. -/
inductive FeatureName where
  | hIP | uLen | uShort | uAt | uSlash | uPrefix | uSub | uSSL
  | uAnchor | uLinks | uSFH | uAbn | uPol | uSoph
deriving DecidableEq, Fintype, Repr

/-- Projection of a feature vector at a named field. -/
def getField (v : FeatureVec) : FeatureName → Int
  | .hIP => v.having_IP_Address
  | .uLen => v.URL_Length
  | .uShort => v.Shortining_Service
  | .uAt => v.having_At_Symbol
  | .uSlash => v.double_slash_redirecting
  | .uPrefix => v.Prefix_Suffix
  | .uSub => v.having_Sub_Domain
  | .uSSL => v.SSLfinal_State
  | .uAnchor => v.URL_of_Anchor
  | .uLinks => v.Links_in_tags
  | .uSFH => v.SFH
  | .uAbn => v.Abnormal_URL
  | .uPol => v.has_political_keyword
  | .uSoph => v.sophistication_level

/-- URL length options of the input form (app.py line 100). -/
inductive UrlLen where
  | short | normal | long
deriving DecidableEq, Repr

/-- SSL certificate status options of the input form (app.py line 101). -/
inductive SslState where
  | trusted | suspicious | sslNone
deriving DecidableEq, Repr

/-- Sub-domain complexity options of the input form (app.py line 103). -/
inductive SubDomain where
  | subNone | subOne | subMany
deriving DecidableEq, Repr

/-- Technical sophistication options of the input form (app.py line 110). -/
inductive Sophistication where
  | low | medium | high
deriving DecidableEq, Repr

/-- The ten user-settable form values of the sidebar (app.py lines 99-111). -/
structure FormValues where
  url_length : UrlLen
  ssl_state : SslState
  sub_domain : SubDomain
  prefix_suffix : Bool
  has_ip : Bool
  short_service : Bool
  at_symbol : Bool
  abnormal_url : Bool
  political_keyword : Bool
  sophistication : Sophistication
deriving DecidableEq, Repr

/-- The model-input dictionary built from the form (app.py lines 138-155):
the ten user-settable fields are encoded onto the ordinal domains, while
double_slash_redirecting is fixed to -1 and URL_of_Anchor, Links_in_tags
and SFH are fixed to 0. -/
def input_dict (f : FormValues) : FeatureVec where
  having_IP_Address := if f.has_ip then 1 else -1
  URL_Length :=
    match f.url_length with
    | .short => -1
    | .normal => 0
    | .long => 1
  Shortining_Service := if f.short_service then 1 else -1
  having_At_Symbol := if f.at_symbol then 1 else -1
  double_slash_redirecting := -1
  Prefix_Suffix := if f.prefix_suffix then 1 else -1
  having_Sub_Domain :=
    match f.sub_domain with
    | .subNone => -1
    | .subOne => 0
    | .subMany => 1
  SSLfinal_State :=
    match f.ssl_state with
    | .sslNone => -1
    | .suspicious => 0
    | .trusted => 1
  Abnormal_URL := if f.abnormal_url then 1 else -1
  URL_of_Anchor := 0
  Links_in_tags := 0
  SFH := 0
  has_political_keyword := if f.political_keyword then 1 else -1
  sophistication_level :=
    match f.sophistication with
    | .low => -1
    | .medium => 0
    | .high => 1

/-- The nine named risk factors of the heuristic risk scorer
(app.py lines 159-169). -/
inductive RiskFactor where
  | badSSL | abnormalURL | prefixSuffix | shortenedURL | complexSubDomain
  | longURL | usesIP | politicalKeywords | highSophistication
deriving DecidableEq, Fintype, Repr

/-- Display name of each risk factor (the dictionary keys of app.py
lines 159-169). -/
def factorName : RiskFactor → String
  | .badSSL => "Bad SSL"
  | .abnormalURL => "Abnormal URL"
  | .prefixSuffix => "Prefix/Suffix"
  | .shortenedURL => "Shortened URL"
  | .complexSubDomain => "Complex Sub-domain"
  | .longURL => "Long URL"
  | .usesIP => "Uses IP Address"
  | .politicalKeywords => "Political Keywords"
  | .highSophistication => "High Sophistication"

/-- Contribution of one risk factor at a feature vector; each clause is
the corresponding dictionary entry of app.py lines 159-169. -/
def riskContribution (v : FeatureVec) : RiskFactor → Int
  | .badSSL => if v.SSLfinal_State < 1 then 25 else 0
  | .abnormalURL => if v.Abnormal_URL = 1 then 20 else 0
  | .prefixSuffix => if v.Prefix_Suffix = 1 then 15 else 0
  | .shortenedURL => if v.Shortining_Service = 1 then 15 else 0
  | .complexSubDomain => if v.having_Sub_Domain = 1 then 10 else 0
  | .longURL => if v.URL_Length = 1 then 10 else 0
  | .usesIP => if v.having_IP_Address = 1 then 5 else 0
  | .politicalKeywords => if v.has_political_keyword = 1 then 10 else 0
  | .highSophistication => if v.sophistication_level = 1 then 15 else 0

/-- The feature field each risk factor reads. -/
def readsField : RiskFactor → FeatureName
  | .badSSL => .uSSL
  | .abnormalURL => .uAbn
  | .prefixSuffix => .uPrefix
  | .shortenedURL => .uShort
  | .complexSubDomain => .uSub
  | .longURL => .uLen
  | .usesIP => .hIP
  | .politicalKeywords => .uPol
  | .highSophistication => .uSoph

/-- The nine factors in the order of the risk_scores dictionary. -/
def allRiskFactors : List RiskFactor :=
  [.badSSL, .abnormalURL, .prefixSuffix, .shortenedURL, .complexSubDomain,
   .longURL, .usesIP, .politicalKeywords, .highSophistication]

/-- The risk_scores dictionary of app.py lines 159-169, as an ordered
association list of factor name and contribution. -/
def risk_scores (v : FeatureVec) : List (String × Int) :=
  [("Bad SSL", if v.SSLfinal_State < 1 then 25 else 0),
   ("Abnormal URL", if v.Abnormal_URL = 1 then 20 else 0),
   ("Prefix/Suffix", if v.Prefix_Suffix = 1 then 15 else 0),
   ("Shortened URL", if v.Shortining_Service = 1 then 15 else 0),
   ("Complex Sub-domain", if v.having_Sub_Domain = 1 then 10 else 0),
   ("Long URL", if v.URL_Length = 1 then 10 else 0),
   ("Uses IP Address", if v.having_IP_Address = 1 then 5 else 0),
   ("Political Keywords", if v.has_political_keyword = 1 then 10 else 0),
   ("High Sophistication", if v.sophistication_level = 1 then 15 else 0)]

/-- Total risk score: the sum of all contributions of the risk_scores
dictionary. -/
def totalRisk (v : FeatureVec) : Int :=
  ((risk_scores v).map Prod.snd).sum

theorem risk_scores_eq_factors (v : FeatureVec) :
    risk_scores v = allRiskFactors.map fun f => (factorName f, riskContribution v f) :=
  rfl

theorem totalRisk_eq_sum (v : FeatureVec) :
    totalRisk v = (allRiskFactors.map (riskContribution v)).sum :=
  rfl

theorem riskContribution_nonneg (v : FeatureVec) (f : RiskFactor) :
    0 ≤ riskContribution v f := by
  cases f <;> dsimp only [riskContribution] <;> split <;> omega

theorem riskContribution_congr (v w : FeatureVec) (f : RiskFactor)
    (h : getField w (readsField f) = getField v (readsField f)) :
    riskContribution w f = riskContribution v f := by
  cases f <;> simp only [riskContribution, readsField, getField] at h ⊢ <;> rw [h]

theorem readsField_injective :
    ∀ a b : RiskFactor, readsField a = readsField b → a = b := by
  decide

/-- Threat-actor profile record (the value shape of the
THREAT_ACTOR_PROFILES dictionary, app.py lines 18-58). -/
structure ArchetypeProfile where
  name : String
  description : String
  characteristics : List String
  motivations : String
  typical_targets : String
  color : String
deriving DecidableEq, Repr

/-- The hardcoded cluster-id to profile dictionary of app.py lines 18-58. -/
def THREAT_ACTOR_PROFILES : List (Int × ArchetypeProfile) :=
  [(0, { name := "Organized Cybercrime",
         description := "High-volume, financially motivated threat actors using automated tools and infrastructure.",
         characteristics :=
           ["Frequent use of IP addresses and URL shortening services",
            "High volume of abnormal URL structures",
            "Moderate sophistication with focus on quantity over quality",
            "Targets financial gain through phishing campaigns"],
         motivations := "Financial profit through credential theft, credit card fraud, and ransomware deployment",
         typical_targets := "Financial institutions, e-commerce sites, healthcare organizations",
         color := "red" }),
   (1, { name := "State-Sponsored",
         description := "Nation-state actors with high sophistication and strategic objectives.",
         characteristics :=
           ["Advanced evasion techniques and complex URL structures",
            "High use of prefix/suffix manipulation and subdomain complexity",
            "Poor SSL certificate usage for stealth",
            "Targeted political and strategic intelligence gathering"],
         motivations := "Intelligence collection, political espionage, and strategic advantage",
         typical_targets := "Government agencies, defense contractors, critical infrastructure",
         color := "blue" }),
   (2, { name := "Hacktivist",
         description := "Ideologically motivated actors with mixed technical capabilities.",
         characteristics :=
           ["High political keyword usage in campaigns",
            "Mixed technical sophistication levels",
            "Balanced approach to URL manipulation techniques",
            "Focus on ideological messaging and disruption"],
         motivations := "Political activism, social justice, and ideological statements",
         typical_targets := "Government websites, corporations, political organizations",
         color := "green" })]

/-- The fallback profile used when a cluster id is absent from the
dictionary (the default argument of the .get call, app.py lines 192-199). -/
def unknown_profile : ArchetypeProfile where
  name := "Unknown Threat Actor"
  description := "Unable to determine threat actor profile."
  characteristics := []
  motivations := "Unknown"
  typical_targets := "Unknown"
  color := "gray"

/-- Resolution of a cluster id to a profile:
THREAT_ACTOR_PROFILES.get(cluster_id, unknown_profile) of app.py
lines 192-199. -/
def threat_profile (cluster_id : Int) : ArchetypeProfile :=
  (THREAT_ACTOR_PROFILES.lookup cluster_id).getD unknown_profile

/-- Prescription plan returned by the generation provider
(recommended_actions and communication_draft, app.py lines 296-300). -/
structure Prescription where
  recommended_actions : List String
  communication_draft : String
deriving DecidableEq, Repr

/-- Output row of the pycaret classification predict_model call
(external library, pycaret 3.x contract: prediction_label is the
predicted class in 0, 1 and prediction_score is the probability of that
predicted class, hence at least 1/2). -/
structure PredictionRow where
  prediction_label : Nat
  prediction_score : ℚ

/-- The malicious-confidence metric displayed by app.py lines 230-231:
prediction_score when the verdict is malicious, 1 - prediction_score
otherwise. -/
def malicious_confidence_metric (p : PredictionRow) : ℚ :=
  if p.prediction_label = 1 then p.prediction_score else 1 - p.prediction_score

/-- The assembled per-request result of the analysis workflow
(app.py lines 174-213). -/
structure AnalysisResult where
  verdict : String
  is_malicious : Bool
  threat_profile : Option ArchetypeProfile
  cluster_id : Option Int
  risk_breakdown : List (String × Int)
  prescription : Option Prescription
  prescription_error : Option String
deriving DecidableEq, Repr

/-- The analysis workflow of app.py lines 174-213: the classifier verdict
is read from the prediction label; when malicious, the clustering model
is consulted for a cluster id, the profile is resolved, and the
prescription call is attempted, a failure being caught and replaced by a
null plan with the error reason; when benign, no clustering or
prescription call is made. The clustering model and the prescription
call outcome are passed as oracles. -/
def run_analysis (input : FeatureVec) (predicted_label : Nat)
    (cluster_of : FeatureVec → Int)
    (prescription_call : Except String Prescription) : AnalysisResult :=
  let is_mal : Bool := predicted_label = 1
  let risk := risk_scores input
  if is_mal then
    let cid := cluster_of input
    let profile := threat_profile cid
    match prescription_call with
    | .ok p =>
        { verdict := "MALICIOUS", is_malicious := true,
          threat_profile := some profile, cluster_id := some cid,
          risk_breakdown := risk, prescription := some p,
          prescription_error := none }
    | .error e =>
        { verdict := "MALICIOUS", is_malicious := true,
          threat_profile := some profile, cluster_id := some cid,
          risk_breakdown := risk, prescription := none,
          prescription_error := some e }
  else
    { verdict := "BENIGN", is_malicious := false,
      threat_profile := none, cluster_id := none,
      risk_breakdown := risk, prescription := none,
      prescription_error := none }

/-- One row of the synthetic training corpus: the 14 features plus the
two ground-truth columns label and threat_actor (train_model.py
lines 102-116). -/
structure TrainingRow where
  features : FeatureVec
  label : Int
  threat_actor : Int
deriving DecidableEq, Repr

/-- Ambient source of randomness: the stream of values the unseeded
global numpy random generator yields, one value per draw.
generate_synthetic_data never seeds it and takes no seed argument, so
the stream is an input of the model, not a function of any request
parameter. -/
def RandStream : Type := Nat → Nat

/-- Per-feature categorical table of one np.random.choice call: the
support of the feature values and the probability weights steering the
real sampler. The model keeps the weights as data of the table; a draw
selects some support element, driven by the ambient stream. -/
structure FeatureDist where
  support : List Int
  probs : List ℚ

/-- One draw of np.random.choice: consumes the stream value at
position k and selects a support element with it. -/
def draw (s : RandStream) (k : Nat) (d : FeatureDist) : Int :=
  d.support.getD (s k % d.support.length) 0

/-- The 14 per-feature tables of one generation block (one of the four
dictionaries of train_model.py lines 29-100). -/
structure BlockTable where
  having_IP_Address : FeatureDist
  URL_Length : FeatureDist
  Shortining_Service : FeatureDist
  having_At_Symbol : FeatureDist
  double_slash_redirecting : FeatureDist
  Prefix_Suffix : FeatureDist
  having_Sub_Domain : FeatureDist
  SSLfinal_State : FeatureDist
  URL_of_Anchor : FeatureDist
  Links_in_tags : FeatureDist
  SFH : FeatureDist
  Abnormal_URL : FeatureDist
  has_political_keyword : FeatureDist
  sophistication_level : FeatureDist

/-- The state_sponsored_data table (train_model.py lines 29-44). -/
def stateSponsoredTable : BlockTable where
  having_IP_Address := ⟨[1, -1], [0.1, 0.9]⟩
  URL_Length := ⟨[1, 0, -1], [0.7, 0.2, 0.1]⟩
  Shortining_Service := ⟨[1, -1], [0.2, 0.8]⟩
  having_At_Symbol := ⟨[1, -1], [0.3, 0.7]⟩
  double_slash_redirecting := ⟨[1, -1], [0.4, 0.6]⟩
  Prefix_Suffix := ⟨[1, -1], [0.8, 0.2]⟩
  having_Sub_Domain := ⟨[1, 0, -1], [0.7, 0.2, 0.1]⟩
  SSLfinal_State := ⟨[-1, 0, 1], [0.7, 0.2, 0.1]⟩
  URL_of_Anchor := ⟨[-1, 0, 1], [0.6, 0.3, 0.1]⟩
  Links_in_tags := ⟨[-1, 0, 1], [0.5, 0.3, 0.2]⟩
  SFH := ⟨[-1, 0, 1], [0.7, 0.2, 0.1]⟩
  Abnormal_URL := ⟨[1, -1], [0.6, 0.4]⟩
  has_political_keyword := ⟨[1, -1], [0.3, 0.7]⟩
  sophistication_level := ⟨[1, 0, -1], [0.8, 0.15, 0.05]⟩

/-- The cybercrime_data table (train_model.py lines 48-63). -/
def cybercrimeTable : BlockTable where
  having_IP_Address := ⟨[1, -1], [0.6, 0.4]⟩
  URL_Length := ⟨[1, 0, -1], [0.2, 0.5, 0.3]⟩
  Shortining_Service := ⟨[1, -1], [0.8, 0.2]⟩
  having_At_Symbol := ⟨[1, -1], [0.5, 0.5]⟩
  double_slash_redirecting := ⟨[1, -1], [0.6, 0.4]⟩
  Prefix_Suffix := ⟨[1, -1], [0.4, 0.6]⟩
  having_Sub_Domain := ⟨[1, 0, -1], [0.3, 0.4, 0.3]⟩
  SSLfinal_State := ⟨[-1, 0, 1], [0.5, 0.3, 0.2]⟩
  URL_of_Anchor := ⟨[-1, 0, 1], [0.4, 0.4, 0.2]⟩
  Links_in_tags := ⟨[-1, 0, 1], [0.5, 0.3, 0.2]⟩
  SFH := ⟨[-1, 0, 1], [0.6, 0.2, 0.2]⟩
  Abnormal_URL := ⟨[1, -1], [0.7, 0.3]⟩
  has_political_keyword := ⟨[1, -1], [0.1, 0.9]⟩
  sophistication_level := ⟨[1, 0, -1], [0.2, 0.5, 0.3]⟩

/-- The hacktivist_data table (train_model.py lines 67-82). -/
def hacktivistTable : BlockTable where
  having_IP_Address := ⟨[1, -1], [0.4, 0.6]⟩
  URL_Length := ⟨[1, 0, -1], [0.3, 0.4, 0.3]⟩
  Shortining_Service := ⟨[1, -1], [0.5, 0.5]⟩
  having_At_Symbol := ⟨[1, -1], [0.4, 0.6]⟩
  double_slash_redirecting := ⟨[1, -1], [0.4, 0.6]⟩
  Prefix_Suffix := ⟨[1, -1], [0.5, 0.5]⟩
  having_Sub_Domain := ⟨[1, 0, -1], [0.4, 0.4, 0.2]⟩
  SSLfinal_State := ⟨[-1, 0, 1], [0.4, 0.3, 0.3]⟩
  URL_of_Anchor := ⟨[-1, 0, 1], [0.4, 0.3, 0.3]⟩
  Links_in_tags := ⟨[-1, 0, 1], [0.4, 0.3, 0.3]⟩
  SFH := ⟨[-1, 0, 1], [0.4, 0.3, 0.3]⟩
  Abnormal_URL := ⟨[1, -1], [0.5, 0.5]⟩
  has_political_keyword := ⟨[1, -1], [0.7, 0.3]⟩
  sophistication_level := ⟨[1, 0, -1], [0.3, 0.5, 0.2]⟩

/-- The benign_data table (train_model.py lines 85-100). -/
def benignTable : BlockTable where
  having_IP_Address := ⟨[1, -1], [0.05, 0.95]⟩
  URL_Length := ⟨[1, 0, -1], [0.1, 0.6, 0.3]⟩
  Shortining_Service := ⟨[1, -1], [0.1, 0.9]⟩
  having_At_Symbol := ⟨[1, -1], [0.05, 0.95]⟩
  double_slash_redirecting := ⟨[1, -1], [0.05, 0.95]⟩
  Prefix_Suffix := ⟨[1, -1], [0.1, 0.9]⟩
  having_Sub_Domain := ⟨[1, 0, -1], [0.1, 0.4, 0.5]⟩
  SSLfinal_State := ⟨[-1, 0, 1], [0.05, 0.15, 0.8]⟩
  URL_of_Anchor := ⟨[-1, 0, 1], [0.1, 0.2, 0.7]⟩
  Links_in_tags := ⟨[-1, 0, 1], [0.1, 0.2, 0.7]⟩
  SFH := ⟨[-1, 0, 1], [0.1, 0.1, 0.8]⟩
  Abnormal_URL := ⟨[1, -1], [0.1, 0.9]⟩
  has_political_keyword := ⟨[1, -1], [0.05, 0.95]⟩
  sophistication_level := ⟨[1, 0, -1], [0.05, 0.1, 0.85]⟩

/-- Row i of a generation block of m rows whose column draws start at
stream position k: the block is sampled column by column in the source
dictionary order, each column consuming m stream positions, so row i
reads column c at position k + c * m + i. -/
def blockRow (t : BlockTable) (m : Nat) (s : RandStream) (k i : Nat) : FeatureVec where
  having_IP_Address := draw s (k + i) t.having_IP_Address
  URL_Length := draw s (k + m + i) t.URL_Length
  Shortining_Service := draw s (k + 2 * m + i) t.Shortining_Service
  having_At_Symbol := draw s (k + 3 * m + i) t.having_At_Symbol
  double_slash_redirecting := draw s (k + 4 * m + i) t.double_slash_redirecting
  Prefix_Suffix := draw s (k + 5 * m + i) t.Prefix_Suffix
  having_Sub_Domain := draw s (k + 6 * m + i) t.having_Sub_Domain
  SSLfinal_State := draw s (k + 7 * m + i) t.SSLfinal_State
  URL_of_Anchor := draw s (k + 8 * m + i) t.URL_of_Anchor
  Links_in_tags := draw s (k + 9 * m + i) t.Links_in_tags
  SFH := draw s (k + 10 * m + i) t.SFH
  Abnormal_URL := draw s (k + 11 * m + i) t.Abnormal_URL
  has_political_keyword := draw s (k + 12 * m + i) t.has_political_keyword
  sophistication_level := draw s (k + 13 * m + i) t.sophistication_level

/-- One generation block: m rows sampled from a table, all carrying the
same ground-truth label and threat_actor id (one of the four DataFrames
of train_model.py lines 103-116). -/
def genBlock (t : BlockTable) (m : Nat) (s : RandStream) (k : Nat)
    (lab ta : Int) : List TrainingRow :=
  (List.range m).map fun i => ⟨blockRow t m s k i, lab, ta⟩

/-- Fuel-indexed Fisher-Yates extraction modelling
DataFrame.sample(frac=1) of train_model.py line 120: the ambient stream
picks, at each step, which remaining row comes next, so the result is a
permutation of the input in an order driven by the stream. -/
def shuffleFuel (s : RandStream) : Nat → Nat → List α → List α
  | 0, _, _ => []
  | fuel + 1, k, l =>
    if h : 0 < l.length then
      l.get ⟨s k % l.length, Nat.mod_lt _ h⟩ ::
        shuffleFuel s fuel (k + 1) (l.eraseIdx (s k % l.length))
    else []

/-- The global shuffle of the concatenated corpus. -/
def shuffle (s : RandStream) (k : Nat) (l : List α) : List α :=
  shuffleFuel s l.length k l

/-- The synthetic corpus generator (train_model.py lines 13-120): integer
halving into phishing and benign counts, integer thirds of the phishing
half into the three archetype blocks with the remainder in the
hacktivist block, column-by-column sampling of the four blocks in
source order from the ambient stream, concatenation, and the global
shuffle. The function takes no seed: the stream is whatever the
process-global generator happens to hold. -/
def generate_synthetic_data (s : RandStream) (num_samples : Nat) : List TrainingRow :=
  let num_phishing := num_samples / 2
  let num_benign := num_samples - num_phishing
  let state_sponsored := num_phishing / 3
  let cybercrime := num_phishing / 3
  let hacktivist := num_phishing - state_sponsored - cybercrime
  let df_state_sponsored := genBlock stateSponsoredTable state_sponsored s 0 1 0
  let df_cybercrime := genBlock cybercrimeTable cybercrime s (14 * state_sponsored) 1 1
  let df_hacktivist :=
    genBlock hacktivistTable hacktivist s (14 * (state_sponsored + cybercrime)) 1 2
  let df_benign :=
    genBlock benignTable num_benign s
      (14 * (state_sponsored + cybercrime + hacktivist)) 0 (-1)
  shuffle s (14 * (state_sponsored + cybercrime + hacktivist + num_benign))
    (df_state_sponsored ++ df_cybercrime ++ df_hacktivist ++ df_benign)

/-- The data preparation of train_clustering_model (train_model.py
line 144): data.drop removes the label and threat_actor COLUMNS and
keeps every row, benign ones included. -/
def clustering_data (data : List TrainingRow) : List FeatureVec :=
  data.map TrainingRow.features

/-- The claim's reading of the attribution training input, stated for
comparison: the feature columns of the malicious rows only (rows with
label = 1). -/
def clustering_data_spec (data : List TrainingRow) : List FeatureVec :=
  (data.filter fun r => r.label == 1).map TrainingRow.features

/-- The cluster-id resolution available after a training run
(train_model.py lines 139-155 and app.py lines 60-91, 189-199): the
training function returns only the fitted 3-cluster model and computes
no mapping from cluster ids to corpus archetypes; load_assets loads the
two model artifacts and nothing else; serving resolves every cluster id
through the constant THREAT_ACTOR_PROFILES dictionary. The corpus
argument records that the resolution in force after training on any
corpus is that same constant dictionary. -/
def binding_after_training (_corpus : List TrainingRow) : Int → ArchetypeProfile :=
  threat_profile

/-- Ground-truth archetype display name per archetype id as the
generator assigns them (train_model.py lines 109-116 with the block
headers at lines 27, 46, 65: id 0 labels the state-sponsored block, id 1
the organized-cybercrime block, id 2 the hacktivist block, -1 benign). -/
def generator_archetype_name : Int → Option String := fun i =>
  if i = 0 then some "State-Sponsored"
  else if i = 1 then some "Organized Cybercrime"
  else if i = 2 then some "Hacktivist"
  else none

/-- Number of malicious rows of a corpus. -/
def malCount (c : List TrainingRow) : Nat :=
  c.countP fun r => r.label == 1

/-- Number of benign rows of a corpus. -/
def benCount (c : List TrainingRow) : Nat :=
  c.countP fun r => r.label == 0

/-- Number of rows of a corpus carrying a given ground-truth
threat_actor id. -/
def actorCount (ta : Int) (c : List TrainingRow) : Nat :=
  c.countP fun r => r.threat_actor == ta

theorem get_cons_eraseIdx_perm (l : List α) (i : Nat) (h : i < l.length) :
    List.Perm (l.get ⟨i, h⟩ :: l.eraseIdx i) l := by
  conv_rhs => rw [← List.take_append_drop i l, List.drop_eq_getElem_cons h]
  rw [List.eraseIdx_eq_take_drop_succ]
  exact List.perm_middle.symm

theorem shuffleFuel_perm (s : RandStream) :
    ∀ (fuel k : Nat) (l : List α), l.length ≤ fuel →
      List.Perm (shuffleFuel s fuel k l) l := by
  intro fuel
  induction fuel with
  | zero =>
      intro k l h
      have : l = [] := List.eq_nil_of_length_eq_zero (Nat.le_zero.mp h)
      subst this
      exact List.Perm.refl _
  | succ n ih =>
      intro k l h
      rw [shuffleFuel]
      split
      next hpos =>
        have hidx : s k % l.length < l.length := Nat.mod_lt _ hpos
        have hlen : (l.eraseIdx (s k % l.length)).length ≤ n := by
          rw [List.length_eraseIdx_of_lt hidx]
          omega
        exact ((ih (k + 1) _ hlen).cons _).trans (get_cons_eraseIdx_perm l _ hidx)
      next hpos =>
        have : l = [] := List.eq_nil_of_length_eq_zero (by omega)
        subst this
        exact List.Perm.refl _

theorem shuffle_perm (s : RandStream) (k : Nat) (l : List α) :
    List.Perm (shuffle s k l) l :=
  shuffleFuel_perm s l.length k l le_rfl

theorem countP_genBlock_const_true (p : TrainingRow → Bool) (t : BlockTable)
    (m : Nat) (s : RandStream) (k : Nat) (lab ta : Int)
    (hp : ∀ v : FeatureVec, p ⟨v, lab, ta⟩ = true) :
    (genBlock t m s k lab ta).countP p = m := by
  rw [genBlock, List.countP_map]
  calc List.countP (p ∘ fun i => (⟨blockRow t m s k i, lab, ta⟩ : TrainingRow))
        (List.range m)
      = (List.range m).length :=
        List.countP_eq_length.mpr fun i _ => hp (blockRow t m s k i)
    _ = m := List.length_range m

theorem countP_genBlock_const_false (p : TrainingRow → Bool) (t : BlockTable)
    (m : Nat) (s : RandStream) (k : Nat) (lab ta : Int)
    (hp : ∀ v : FeatureVec, p ⟨v, lab, ta⟩ = false) :
    (genBlock t m s k lab ta).countP p = 0 := by
  rw [genBlock, List.countP_map]
  refine List.countP_eq_zero.mpr fun i _ => ?_
  simp only [Function.comp]
  rw [hp (blockRow t m s k i)]
  simp

theorem countP_generate (p : TrainingRow → Bool) (s : RandStream) (n : Nat) :
    (generate_synthetic_data s n).countP p =
      (genBlock stateSponsoredTable (n / 2 / 3) s 0 1 0).countP p +
      (genBlock cybercrimeTable (n / 2 / 3) s (14 * (n / 2 / 3)) 1 1).countP p +
      (genBlock hacktivistTable (n / 2 - n / 2 / 3 - n / 2 / 3) s
        (14 * (n / 2 / 3 + n / 2 / 3)) 1 2).countP p +
      (genBlock benignTable (n - n / 2) s
        (14 * (n / 2 / 3 + n / 2 / 3 + (n / 2 - n / 2 / 3 - n / 2 / 3))) 0
        (-1)).countP p := by
  unfold generate_synthetic_data
  rw [List.Perm.countP_eq p (shuffle_perm _ _ _)]
  simp [List.countP_append]
  omega

theorem countP_genBlock_label (t : BlockTable) (m : Nat) (s : RandStream)
    (k : Nat) (lab ta c : Int) :
    (genBlock t m s k lab ta).countP (fun r => r.label == c) =
      if lab = c then m else 0 := by
  split
  next h => exact countP_genBlock_const_true _ _ _ _ _ _ _ fun v => by simp [h]
  next h =>
    exact countP_genBlock_const_false _ _ _ _ _ _ _ fun v => by
      simp [beq_eq_false_iff_ne, h]

theorem countP_genBlock_actor (t : BlockTable) (m : Nat) (s : RandStream)
    (k : Nat) (lab ta c : Int) :
    (genBlock t m s k lab ta).countP (fun r => r.threat_actor == c) =
      if ta = c then m else 0 := by
  split
  next h => exact countP_genBlock_const_true _ _ _ _ _ _ _ fun v => by simp [h]
  next h =>
    exact countP_genBlock_const_false _ _ _ _ _ _ _ fun v => by
      simp [beq_eq_false_iff_ne, h]

/-- Feature vector with every user flag at its clean value. -/
def cleanVec : FeatureVec :=
  ⟨-1, 0, -1, -1, -1, -1, -1, 1, 0, 0, 0, -1, -1, -1⟩

/-- Corpus holding a single benign row. -/
def benign_only_corpus : List TrainingRow := [⟨cleanVec, 0, -1⟩]

/-- Feature vector with every risk flag at its non-contributing value. -/
def vSafe : FeatureVec :=
  ⟨-1, 0, -1, -1, -1, -1, 0, 1, 0, 0, 0, -1, -1, 0⟩

/-- vSafe with the IP-address flag toggled to its risky value. -/
def vRisky : FeatureVec := { vSafe with having_IP_Address := 1 }

/-- The default form values of the sidebar (app.py lines 99-111). -/
def sampleForm : FormValues where
  url_length := .long
  ssl_state := .suspicious
  sub_domain := .subOne
  prefix_suffix := true
  has_ip := false
  short_service := false
  at_symbol := false
  abnormal_url := true
  political_keyword := false
  sophistication := .medium

/-- C1: the cluster-to-archetype resolution in force after training is
the constant THREAT_ACTOR_PROFILES dictionary, identical for every
training corpus rather than computed from it, and it disagrees with the
ground-truth archetype naming of the generator: cluster id 0 resolves to
Organized Cybercrime while the corpus rows with archetype id 0 are the
state-sponsored block (and symmetrically for id 1), so it cannot be the
majority ground-truth archetype binding the claim describes. -/
theorem binding_fixed_not_learned :
    (∀ c₁ c₂ : List TrainingRow, binding_after_training c₁ = binding_after_training c₂) ∧
    (binding_after_training [] 0).name = "Organized Cybercrime" ∧
    generator_archetype_name 0 = some "State-Sponsored" ∧
    (binding_after_training [] 1).name = "State-Sponsored" ∧
    generator_archetype_name 1 = some "Organized Cybercrime" ∧
    some (binding_after_training [] 0).name ≠ generator_archetype_name 0 ∧
    some (binding_after_training [] 1).name ≠ generator_archetype_name 1 :=
  ⟨fun _ _ => rfl, rfl, rfl, rfl, rfl, by decide, by decide⟩

/-- C2 counterexample: on a corpus holding one benign row, the data the
clustering fit receives contains that benign row's features, while the
claim's malicious-rows-only selection is empty. -/
theorem clustering_fit_includes_benign_rows :
    clustering_data benign_only_corpus ≠ clustering_data_spec benign_only_corpus ∧
    clustering_data benign_only_corpus = [cleanVec] ∧
    clustering_data_spec benign_only_corpus = [] := by
  exact ⟨by decide, rfl, rfl⟩

/-- C2 amended: the attribution training fits over the feature columns of
ALL rows of the corpus, benign rows included; only the label and
threat_actor columns are excluded, no row is. -/
theorem clustering_fit_keeps_every_row (data : List TrainingRow) :
    (clustering_data data).length = data.length ∧
    ∀ r ∈ data, r.features ∈ clustering_data data := by
  refine ⟨by simp [clustering_data], fun r hr => List.mem_map_of_mem _ hr⟩

/-- C2 witness: the benign row of the one-row corpus is part of the
clustering fit input. -/
theorem clustering_fit_keeps_every_row_witness :
    TrainingRow.features ⟨cleanVec, 0, -1⟩ ∈ clustering_data benign_only_corpus :=
  (clustering_fit_keeps_every_row benign_only_corpus).2 ⟨cleanVec, 0, -1⟩ (by decide)

/-- C3: the generator takes no seed, so its output is not a function of
the requested row count alone: two runs asking for the same row count
under different ambient global generator states produce different
corpora. -/
theorem generator_not_reproducible :
    ∃ s₁ s₂ : RandStream,
      generate_synthetic_data s₁ 2 ≠ generate_synthetic_data s₂ 2 :=
  ⟨fun _ => 0, fun _ => 1, by decide⟩

/-- C4: the displayed confidence is prediction_score for malicious
verdicts and 1 - prediction_score for benign ones; since pycaret's
prediction_score is already the probability of the predicted class, a
benign prediction the model assigns probability 0.9 is displayed with
confidence 0.1, unconditionally the malicious-class probability, below
one half and not the predicted label's probability. -/
theorem benign_confidence_is_complement :
    malicious_confidence_metric ⟨0, 9/10⟩ = 1/10 ∧
    malicious_confidence_metric ⟨0, 9/10⟩ < 1/2 ∧
    malicious_confidence_metric ⟨0, 9/10⟩ ≠ 9/10 := by
  norm_num [malicious_confidence_metric]

/-- C5: no risk factor ever contributes negative points, and toggling a
single risk-contributing field of a vector from a value where the factor
contributes nothing, all other fields unchanged, never decreases the
total risk score. -/
theorem risk_nonneg_and_monotone :
    (∀ (v : FeatureVec) (f : RiskFactor), 0 ≤ riskContribution v f) ∧
    (∀ (v w : FeatureVec) (f : RiskFactor),
      (∀ g : FeatureName, g ≠ readsField f → getField w g = getField v g) →
      riskContribution v f = 0 →
      totalRisk v ≤ totalRisk w) := by
  constructor
  · exact riskContribution_nonneg
  · intro v w f hagree hzero
    rw [totalRisk_eq_sum, totalRisk_eq_sum]
    apply List.sum_le_sum
    intro fac _
    by_cases hf : fac = f
    · subst hf
      rw [hzero]
      exact riskContribution_nonneg w fac
    · have hfield : getField w (readsField fac) = getField v (readsField fac) :=
        hagree _ fun hEq => hf (readsField_injective fac f hEq)
      exact (riskContribution_congr v w fac hfield).ge

/-- C5 witness: toggling the IP-address flag of an otherwise clean
vector to its risky value does not lower the total risk. -/
theorem risk_nonneg_and_monotone_witness :
    totalRisk vSafe ≤ totalRisk vRisky :=
  risk_nonneg_and_monotone.2 vSafe vRisky .usesIP (by decide) (by decide)

/-- C6: for a malicious request, a failing prescription call leaves the
verdict, the malicious flag, the resolved threat profile, the cluster id
and the risk breakdown exactly as in the successful run, and only the
plan degrades to null together with the error reason. -/
theorem prescription_failure_preserves_results (input : FeatureVec)
    (lab : Nat) (cluster_of : FeatureVec → Int) (e : String)
    (p : Prescription) (hmal : lab = 1) :
    (run_analysis input lab cluster_of (.error e)).verdict =
      (run_analysis input lab cluster_of (.ok p)).verdict ∧
    (run_analysis input lab cluster_of (.error e)).is_malicious =
      (run_analysis input lab cluster_of (.ok p)).is_malicious ∧
    (run_analysis input lab cluster_of (.error e)).threat_profile =
      (run_analysis input lab cluster_of (.ok p)).threat_profile ∧
    (run_analysis input lab cluster_of (.error e)).cluster_id =
      (run_analysis input lab cluster_of (.ok p)).cluster_id ∧
    (run_analysis input lab cluster_of (.error e)).risk_breakdown =
      (run_analysis input lab cluster_of (.ok p)).risk_breakdown ∧
    (run_analysis input lab cluster_of (.error e)).prescription = none ∧
    (run_analysis input lab cluster_of (.error e)).prescription_error = some e := by
  subst hmal
  simp [run_analysis]

/-- C6 witness: a concrete failing prescription call on a malicious
request degrades only the plan. -/
theorem prescription_failure_preserves_results_witness :
    (run_analysis cleanVec 1 (fun _ => 0) (.error "provider down")).risk_breakdown =
      (run_analysis cleanVec 1 (fun _ => 0)
        (.ok ⟨["block the URL"], "draft"⟩)).risk_breakdown ∧
    (run_analysis cleanVec 1 (fun _ => 0) (.error "provider down")).prescription = none ∧
    (run_analysis cleanVec 1 (fun _ => 0) (.error "provider down")).prescription_error =
      some "provider down" :=
  ⟨(prescription_failure_preserves_results cleanVec 1 (fun _ => 0) "provider down"
      ⟨["block the URL"], "draft"⟩ rfl).2.2.2.2.1,
   (prescription_failure_preserves_results cleanVec 1 (fun _ => 0) "provider down"
      ⟨["block the URL"], "draft"⟩ rfl).2.2.2.2.2.1,
   (prescription_failure_preserves_results cleanVec 1 (fun _ => 0) "provider down"
      ⟨["block the URL"], "draft"⟩ rfl).2.2.2.2.2.2⟩

/-- C7: a cluster id bound by none of the three dictionary entries
resolves to the unknown-profile fallback; the resolution is a total
function, never an exception. -/
theorem unbound_cluster_resolves_to_unknown_profile (cid : Int)
    (h0 : cid ≠ 0) (h1 : cid ≠ 1) (h2 : cid ≠ 2) :
    threat_profile cid = unknown_profile := by
  have e0 : (cid == (0 : Int)) = false := beq_eq_false_iff_ne.mpr h0
  have e1 : (cid == (1 : Int)) = false := beq_eq_false_iff_ne.mpr h1
  have e2 : (cid == (2 : Int)) = false := beq_eq_false_iff_ne.mpr h2
  simp [threat_profile, THREAT_ACTOR_PROFILES, List.lookup, e0, e1, e2]

/-- C7 witness: cluster id 5 resolves to the unknown profile. -/
theorem unbound_cluster_resolves_to_unknown_profile_witness :
    threat_profile 5 = unknown_profile :=
  unbound_cluster_resolves_to_unknown_profile 5 (by decide) (by decide) (by decide)

/-- C8: for every requested row count and every ambient stream, the
corpus splits into an exact integer half of malicious rows and the rest
benign (within one row of 50/50), and the malicious half splits into
integer thirds per archetype with the remainder rows in the last
(hacktivist, id 2) block, so archetype counts differ by at most 2. -/
theorem generator_partition_counts (s : RandStream) (n : Nat) :
    malCount (generate_synthetic_data s n) = n / 2 ∧
    benCount (generate_synthetic_data s n) = n - n / 2 ∧
    malCount (generate_synthetic_data s n) + benCount (generate_synthetic_data s n) = n ∧
    malCount (generate_synthetic_data s n) ≤ benCount (generate_synthetic_data s n) ∧
    benCount (generate_synthetic_data s n) ≤ malCount (generate_synthetic_data s n) + 1 ∧
    actorCount 0 (generate_synthetic_data s n) = n / 2 / 3 ∧
    actorCount 1 (generate_synthetic_data s n) = n / 2 / 3 ∧
    actorCount 2 (generate_synthetic_data s n) = n / 2 - 2 * (n / 2 / 3) ∧
    actorCount 0 (generate_synthetic_data s n) + actorCount 1 (generate_synthetic_data s n)
      + actorCount 2 (generate_synthetic_data s n) = malCount (generate_synthetic_data s n) ∧
    actorCount 0 (generate_synthetic_data s n) ≤ actorCount 2 (generate_synthetic_data s n) ∧
    actorCount 2 (generate_synthetic_data s n) ≤ actorCount 0 (generate_synthetic_data s n) + 2 := by
  have hm : malCount (generate_synthetic_data s n) = n / 2 := by
    rw [malCount, countP_generate, countP_genBlock_label, countP_genBlock_label,
      countP_genBlock_label, countP_genBlock_label]
    simp only [Int.reduceEq, Int.reduceNeg, reduceIte]
    omega
  have hb : benCount (generate_synthetic_data s n) = n - n / 2 := by
    rw [benCount, countP_generate, countP_genBlock_label, countP_genBlock_label,
      countP_genBlock_label, countP_genBlock_label]
    simp only [Int.reduceEq, Int.reduceNeg, reduceIte]
    omega
  have h0 : actorCount 0 (generate_synthetic_data s n) = n / 2 / 3 := by
    rw [actorCount, countP_generate, countP_genBlock_actor, countP_genBlock_actor,
      countP_genBlock_actor, countP_genBlock_actor]
    simp only [Int.reduceEq, Int.reduceNeg, reduceIte]
    omega
  have h1 : actorCount 1 (generate_synthetic_data s n) = n / 2 / 3 := by
    rw [actorCount, countP_generate, countP_genBlock_actor, countP_genBlock_actor,
      countP_genBlock_actor, countP_genBlock_actor]
    simp only [Int.reduceEq, Int.reduceNeg, reduceIte]
    omega
  have h2 : actorCount 2 (generate_synthetic_data s n) = n / 2 - 2 * (n / 2 / 3) := by
    rw [actorCount, countP_generate, countP_genBlock_actor, countP_genBlock_actor,
      countP_genBlock_actor, countP_genBlock_actor]
    simp only [Int.reduceEq, Int.reduceNeg, reduceIte]
    omega
  refine ⟨hm, hb, by omega, by omega, by omega, h0, h1, h2, by omega, by omega, by omega⟩

/-- C9: when the classifier verdict is not malicious, the assembled
result is independent of both the clustering model and the prescription
provider, no cluster id or profile is produced, and the plan is null. -/
theorem benign_no_attribution_no_prescription (input : FeatureVec) (lab : Nat)
    (c₁ c₂ : FeatureVec → Int) (pr₁ pr₂ : Except String Prescription)
    (hben : lab ≠ 1) :
    run_analysis input lab c₁ pr₁ = run_analysis input lab c₂ pr₂ ∧
    (run_analysis input lab c₁ pr₁).cluster_id = none ∧
    (run_analysis input lab c₁ pr₁).threat_profile = none ∧
    (run_analysis input lab c₁ pr₁).prescription = none := by
  simp [run_analysis, hben]

/-- C9 witness: a concrete benign run yields the same result for two
different clustering and prescription oracles, with no attribution and
a null plan. -/
theorem benign_no_attribution_no_prescription_witness :
    run_analysis cleanVec 0 (fun _ => 0) (.ok ⟨["isolate the host"], "draft"⟩) =
      run_analysis cleanVec 0 (fun _ => 7) (.error "provider quota") ∧
    (run_analysis cleanVec 0 (fun _ => 0)
      (.ok ⟨["isolate the host"], "draft"⟩)).prescription = none :=
  ⟨(benign_no_attribution_no_prescription cleanVec 0 (fun _ => 0) (fun _ => 7)
      (.ok ⟨["isolate the host"], "draft"⟩) (.error "provider quota") (by decide)).1,
   (benign_no_attribution_no_prescription cleanVec 0 (fun _ => 0) (fun _ => 7)
      (.ok ⟨["isolate the host"], "draft"⟩) (.error "provider quota") (by decide)).2.2.2⟩

/-- C10: the model-input vector fixes double_slash_redirecting to -1 and
URL_of_Anchor, Links_in_tags and SFH to 0 for every request, and two
requests agreeing on the ten user-settable form fields produce the same
feature vector, the same risk breakdown and the same total. -/
theorem request_fixed_fields_and_determinism :
    (∀ f : FormValues,
      (input_dict f).double_slash_redirecting = -1 ∧
      (input_dict f).URL_of_Anchor = 0 ∧
      (input_dict f).Links_in_tags = 0 ∧
      (input_dict f).SFH = 0) ∧
    (∀ f₁ f₂ : FormValues,
      f₁.url_length = f₂.url_length → f₁.ssl_state = f₂.ssl_state →
      f₁.sub_domain = f₂.sub_domain → f₁.prefix_suffix = f₂.prefix_suffix →
      f₁.has_ip = f₂.has_ip → f₁.short_service = f₂.short_service →
      f₁.at_symbol = f₂.at_symbol → f₁.abnormal_url = f₂.abnormal_url →
      f₁.political_keyword = f₂.political_keyword →
      f₁.sophistication = f₂.sophistication →
      input_dict f₁ = input_dict f₂ ∧
      risk_scores (input_dict f₁) = risk_scores (input_dict f₂) ∧
      totalRisk (input_dict f₁) = totalRisk (input_dict f₂)) := by
  constructor
  · intro f
    exact ⟨rfl, rfl, rfl, rfl⟩
  · intro f₁ f₂ h1 h2 h3 h4 h5 h6 h7 h8 h9 h10
    have heq : f₁ = f₂ := by
      cases f₁
      cases f₂
      simp_all
    subst heq
    exact ⟨rfl, rfl, rfl⟩

/-- C10 witness: the default form agrees with itself on all ten fields
and yields identical model input and risk breakdown. -/
theorem request_fixed_fields_and_determinism_witness :
    input_dict sampleForm = input_dict sampleForm ∧
    risk_scores (input_dict sampleForm) = risk_scores (input_dict sampleForm) :=
  ⟨(request_fixed_fields_and_determinism.2 sampleForm sampleForm
      rfl rfl rfl rfl rfl rfl rfl rfl rfl rfl).1,
   (request_fixed_fields_and_determinism.2 sampleForm sampleForm
      rfl rfl rfl rfl rfl rfl rfl rfl rfl rfl).2.1⟩

end SOAR
